import Mathlib

/-!
Verification of the command-line front end in `rsa/cli.py` (python-rsa).

The module under study defines three CLI entry points:

* `keygen`            — parse options, generate a key pair, write the keys;
* `CryptoOperation`   — an abstract template whose `__call__` runs
  parse → read key → read input → transform → write output;
* `EncryptOperation` / `DecryptOperation` — the two concrete variants.

Shallow embedding conventions:

* Python byte/character strings are modelled as Lean `String`.
* The observable behaviour of a run is a pair `Outcome × List Ev`: the way
  the process terminates plus the ordered trace of I/O effects.
* `print >>sys.stderr, s` becomes the trace event `Ev.errLine s`;
  `parser.print_help()` (which optparse sends to *stdout*) becomes
  `Ev.printHelp usage desc`; `parser.error` (optparse: usage plus error
  message on *stderr*, then `SystemExit(2)`) becomes `Ev.parserError`.
* `open(path)` / `open(path, 'rb')` / `open(path, 'w')` / `open(path, 'wb')`
  are recorded as `readFile`/`writeFile` events carrying the mode.  A
  `Platform` supplies the text-mode translations (`decodeText` for reads,
  `encodeText` for writes); binary-mode I/O is the identity on bytes.  The
  `writeFile` event records the bytes that end up on disk (create/truncate
  semantics), i.e. `encodeText data` for a text-mode open.
* The external `rsa` primitives library (newkeys, save_pkcs1, load_pkcs1,
  encrypt, decrypt) is an unspecified collaborator, modelled as an
  `Engine` record of function parameters; key objects are opaque `Nat`
  handles.  Fallible collaborator calls return `Except String _`.
* An uncaught Python exception is the outcome `Outcome.pyError msg`;
  `raise SystemExit(n)` is `Outcome.exitCode n`.
-/

namespace RsaCli

/-- File-open mode: Python `open(p)` (text) vs `open(p, 'rb')`/`'wb'` (binary). -/
inductive Mode
  | text
  | binary
deriving DecidableEq, Repr

/-- One observable I/O effect of a run, in program order. -/
inductive Ev
  /-- a line printed to standard error (`print >>sys.stderr, s`) -/
  | errLine (s : String)
  /-- `parser.print_help()`: the full help (usage + description + options),
      written to standard output -/
  | printHelp (usage desc : String)
  /-- `parser.error(msg)`: usage plus error message, written to standard
      error just before `SystemExit(2)` -/
  | parserError (usage msg : String)
  /-- raw data written to standard output (`sys.stdout.write`) -/
  | outData (s : String)
  /-- a whole-file read of `path`, in the given mode -/
  | readFile (path : String) (m : Mode)
  /-- a whole-file write: `path` now holds exactly `data` (the post
      text-mode-translation bytes when `m = text`) -/
  | writeFile (path : String) (m : Mode) (data : String)
  /-- `sys.stdin.read()` -/
  | readStdinEv
deriving DecidableEq, Repr

/-- Is the event an emission on standard output? -/
def Ev.isStdout : Ev → Bool
  | .printHelp _ _ => true
  | .outData _ => true
  | _ => false

/-- Is the event a raw-data write to standard output? -/
def Ev.isOutData : Ev → Bool
  | .outData _ => true
  | _ => false

/-- Is the event a file write? -/
def Ev.isWriteFile : Ev → Bool
  | .writeFile _ _ _ => true
  | _ => false

/-- Every standard-output emission in the trace is raw payload data
    (no help text or other human-readable material on stdout). -/
def stdoutOnlyData (t : List Ev) : Bool :=
  t.all (fun e => !e.isStdout || e.isOutData)

/-- How the process run terminates. -/
inductive Outcome
  /-- fell off the end of the entry point: exit status 0 -/
  | success
  /-- `raise SystemExit(n)` -/
  | exitCode (n : Nat)
  /-- an uncaught Python exception (traceback; interpreter exits non-zero) -/
  | pyError (msg : String)
deriving DecidableEq, Repr

/-- The platform's text-mode I/O translations.  On POSIX both are the
    identity; on Windows text-mode reads collapse CRLF to LF and text-mode
    writes expand LF to CRLF. -/
structure Platform where
  decodeText : String → String
  encodeText : String → String

/-- The process environment a run observes: `sys.argv[1:]`, the bytes
    available on standard input, and the (raw byte) contents of the file
    system, `none` meaning the file cannot be opened (`IOError`). -/
structure World where
  argv : List String
  stdin : String
  files : String → Option String

/-- The external `rsa` primitives library (an unspecified collaborator).
    Key objects are opaque handles.  `save*` model `key.save_pkcs1(format)`,
    `load*` model `KeyClass.load_pkcs1(keydata, keyform)`; `encrypt` /
    `decrypt` model `rsa.encrypt` / `rsa.decrypt`, `.error` standing for a
    raised exception. -/
structure Engine where
  newkeys : Int → Nat × Nat
  savePubPkcs1 : Nat → String → String
  savePrivPkcs1 : Nat → String → String
  loadPub : String → String → Except String Nat
  loadPriv : String → String → Except String Nat
  encrypt : String → Nat → Except String String
  decrypt : String → Nat → Except String String

/-- Python truthiness of an optional string option value:
    `None` and `''` are falsy, every other string is truthy. -/
def truthy : Option String → Bool
  | none => false
  | some s => s != ""

/-- Python whitespace as stripped by `int(str)`. -/
def isSpaceChar (c : Char) : Bool :=
  c == ' ' || c == '\t' || c == '\n' || c == '\r' || c == '\x0b' || c == '\x0c'

/-- Strip leading and trailing whitespace. -/
def pyStrip (cs : List Char) : List Char :=
  ((cs.dropWhile isSpaceChar).reverse.dropWhile isSpaceChar).reverse

/-- Accumulate a decimal digit string; `none` on any non-digit. -/
def digitsToNatCore : List Char → Nat → Option Nat
  | [], acc => some acc
  | c :: r, acc =>
      if c.isDigit then digitsToNatCore r (acc * 10 + (c.toNat - 48)) else none

/-- Python 2 `int(s)` (base 10): optional surrounding whitespace, optional
    sign, at least one digit; `none` models the raised `ValueError`. -/
def pyInt (s : String) : Option Int :=
  match pyStrip s.toList with
  | [] => none
  | '+' :: ds =>
      match ds with
      | [] => none
      | _ => (digitsToNatCore ds 0).map Int.ofNat
  | '-' :: ds =>
      match ds with
      | [] => none
      | _ => (digitsToNatCore ds 0).map (fun n => -(n : Int))
  | ds => (digitsToNatCore ds 0).map Int.ofNat

/-- Python `str.title()` restricted to the single lowercase words the
    module applies it to (`'encrypting'`, `'decrypting'`): capitalize the
    first character. -/
def pyTitle (s : String) : String :=
  match s.toList with
  | [] => ""
  | c :: r => String.mk (c.toUpper :: r)

/-- Join strings with `", "` (for the optparse invalid-choice message). -/
def commaJoin : List String → String
  | [] => ""
  | [s] => s
  | s :: r => s ++ ", " ++ commaJoin r

/-! ### The relevant fragment of `optparse`

The module declares only long options, each taking one string value, some
constrained by `choices`.  We model exactly the `optparse` behaviour these
declarations exercise: `--name value` and `--name=value` forms, `--`
terminating option processing, interspersed positionals, last occurrence
of a repeated option winning, a lone `-` being positional, any other
`-`/`--` token being an unknown-option error, a missing value being an
error, and a value outside `choices` being an error.  `OptionParser.error`
exits with status 2.  (Abbreviated long options and the quoting optparse
puts around values in messages are elided; nothing below exercises them.) -/

/-- One declared long option. -/
structure OptSpec where
  name : List Char
  choices : Option (List String)

/-- A parse failure, as raised via `OptionParser.error`. -/
inductive ParseErr
  | unknownOption (nm : String)
  | missingValue (nm : String)
  | badChoice (optName val : String) (cs : List String)
deriving DecidableEq, Repr

/-- The corresponding `optparse` error message. -/
def optErrMsg : ParseErr → String
  | .unknownOption nm => "no such option: " ++ nm
  | .missingValue nm => nm ++ " option requires an argument"
  | .badChoice nm v cs =>
      "option " ++ nm ++ ": invalid choice: " ++ v ++
        " (choose from " ++ commaJoin cs ++ ")"

/-- Split a `--name=value` token (already known to start with `--`) at the
    first `=`; accumulator holds the name part reversed. -/
def splitEqAux (acc : List Char) : List Char → List Char × Option String
  | [] => (acc.reverse, none)
  | '=' :: r => (acc.reverse, some (String.mk r))
  | c :: r => splitEqAux (c :: acc) r

/-- Look up a declared option by its full name. -/
def findSpec (specs : List OptSpec) (nm : List Char) : Option OptSpec :=
  specs.find? (fun sp => sp.name == nm)

/-- Validate a value against an option's `choices`. -/
def checkVal (sp : OptSpec) (v : String) : Except ParseErr (String × String) :=
  match sp.choices with
  | some cs =>
      if cs.contains v then .ok (String.mk sp.name, v)
      else .error (.badChoice (String.mk sp.name) v cs)
  | none => .ok (String.mk sp.name, v)

/-- The option-parsing loop.  `pending` holds an option still waiting for
    its value (optparse consumes the next token unconditionally); `opts`
    accumulates `(name, value)` pairs most recent first; `pos` accumulates
    positionals reversed. -/
def procArgs (specs : List OptSpec) :
    List String → Option OptSpec → List (String × String) → List String →
    Except ParseErr (List (String × String) × List String)
  | [], some sp, _, _ => .error (.missingValue (String.mk sp.name))
  | [], none, opts, pos => .ok (opts, pos.reverse)
  | v :: rest, some sp, opts, pos =>
      match checkVal sp v with
      | .error e => .error e
      | .ok pr => procArgs specs rest none (pr :: opts) pos
  | a :: rest, none, opts, pos =>
      match a.toList with
      | ['-', '-'] => .ok (opts, pos.reverse ++ rest)
      | '-' :: '-' :: c :: cs =>
          let pr := splitEqAux [] ('-' :: '-' :: c :: cs)
          match findSpec specs pr.1 with
          | none => .error (.unknownOption (String.mk pr.1))
          | some sp =>
              match pr.2 with
              | some v =>
                  match checkVal sp v with
                  | .error e => .error e
                  | .ok p => procArgs specs rest none (p :: opts) pos
              | none => procArgs specs rest (some sp) opts pos
      | '-' :: c :: _ => .error (.unknownOption (String.mk ['-', c]))
      | _ => procArgs specs rest none opts (a :: pos)

/-- `parser.parse_args(sys.argv[1:])`. -/
def parse_args (specs : List OptSpec) (argv : List String) :
    Except ParseErr (List (String × String) × List String) :=
  procArgs specs argv none [] []

/-- First (i.e. most recent) value recorded for option `nm`. -/
def lookupOpt (l : List (String × String)) (nm : String) : Option String :=
  (l.find? (fun p => p.1 == nm)).map (fun p => p.2)

/-! ### `keygen` -/

/-- The usage string of the key-generation parser (source line 33). -/
def kgUsage : String := "usage: %prog [options] keysize"

/-- The description of the key-generation parser (source line 34). -/
def kgDesc : String := "Generates a new RSA keypair of \"keysize\" bits."

/-- The options `keygen` declares: `--pubout`, `--privout` (plain strings)
    and `--form` (choice of PEM/DER, default PEM). -/
def keygenSpecs : List OptSpec :=
  [⟨"--pubout".toList, none⟩,
   ⟨"--privout".toList, none⟩,
   ⟨"--form".toList, some ["PEM", "DER"]⟩]

/-- `keygen`'s parsed option values (`cli.pubout`, `cli.privout`,
    `cli.form`; the last defaulted to `"PEM"`). -/
structure KgOpts where
  pubout : Option String
  privout : Option String
  form : String
deriving DecidableEq, Repr

/-- Build the option record from the parser's accumulated pairs. -/
def mkKgOpts (l : List (String × String)) : KgOpts :=
  ⟨lookupOpt l "--pubout", lookupOpt l "--privout",
   (lookupOpt l "--form").getD "PEM"⟩

/-- The body of `keygen` after `parse_args` (source lines 51-82):
    positional-count gate, `int()` gate, `rsa.newkeys`, optional public-key
    write (text mode), private-key write to file (text mode) or stdout. -/
def keygenMain (E : Engine) (P : Platform) (opts : KgOpts)
    (cliArgs : List String) : Outcome × List Ev :=
  match cliArgs with
  | [sizeArg] =>
    match pyInt sizeArg with
    | none =>
        (.exitCode 1,
         [Ev.printHelp kgUsage kgDesc,
          Ev.errLine ("Not a valid number: " ++ sizeArg)])
    | some keysize =>
        let keys := E.newkeys keysize
        let pubEvs :=
          if truthy opts.pubout then
            [Ev.errLine ("Writing public key to " ++ opts.pubout.getD ""),
             Ev.writeFile (opts.pubout.getD "") Mode.text
               (P.encodeText (E.savePubPkcs1 keys.1 opts.form))]
          else []
        let privData := E.savePrivPkcs1 keys.2 opts.form
        let privEvs :=
          if truthy opts.privout then
            [Ev.errLine ("Writing private key to " ++ opts.privout.getD ""),
             Ev.writeFile (opts.privout.getD "") Mode.text
               (P.encodeText privData)]
          else
            [Ev.errLine "Writing private key to stdout", Ev.outData privData]
        (.success,
         Ev.errLine ("Generating " ++ toString keysize ++ "-bit key") ::
           (pubEvs ++ privEvs))
  | _ => (.exitCode 1, [Ev.printHelp kgUsage kgDesc])

/-- `rsa.cli.keygen` (source lines 29-82). -/
def keygen (E : Engine) (P : Platform) (w : World) : Outcome × List Ev :=
  match parse_args keygenSpecs w.argv with
  | .error e => (.exitCode 2, [Ev.parserError kgUsage (optErrMsg e)])
  | .ok (opts, pos) => keygenMain E P (mkKgOpts opts) pos

/-! ### `CryptoOperation` and its variants -/

/-- The class-level data of a `CryptoOperation` subclass: the identity
    strings and, standing for `key_class.load_pkcs1` and
    `perform_operation`, the collaborator calls the variant delegates to. -/
structure OpClass where
  keyname : String
  description : String
  operation : String
  operation_past : String
  operation_progressive : String
  load_pkcs1 : String → String → Except String Nat
  perform_operation : String → Nat → Except String String

/-- `CryptoOperation.__init__` interpolates the class template
    `'usage: %%prog [options] %(keyname)s_key'` with the class dict,
    yielding this instance attribute `self.usage`. -/
def instanceUsage (keyname : String) : String :=
  "usage: %prog [options] " ++ keyname ++ "_key"

/-- The usage string hard-coded in `CryptoOperation.parse_cli`
    (source line 137) — note: not derived from the instance. -/
def cryptoUsage : String := "usage: %prog [options] public_key"

/-- The description hard-coded in `CryptoOperation.parse_cli`
    (source lines 138-140). -/
def cryptoParserDesc : String :=
  "Encrypts a file. The file must be shorter than the key length in " ++
    "order to be encrypted. For larger files, use the " ++
    "pyrsa-encrypt-bigfile command."

/-- The class attribute `EncryptOperation.description` (source lines 197-199). -/
def encryptDesc : String :=
  "Encrypts a file. The file must be shorter than the key length in " ++
    "order to be encrypted. For larger files, use the " ++
    "pyrsa-encrypt-bigfile command."

/-- The class attribute `DecryptOperation.description` (source lines 214-216). -/
def decryptDesc : String :=
  "Decrypts a file. The original file must be shorter than the key " ++
    "length in order to have been encrypted. For larger files, use the " ++
    "pyrsa-decrypt-bigfile command."

/-- The options `parse_cli` declares: `--input`, `--output` (plain
    strings) and `--keyform` (choice of PEM/DER, default PEM). -/
def cryptoSpecs : List OptSpec :=
  [⟨"--input".toList, none⟩,
   ⟨"--output".toList, none⟩,
   ⟨"--keyform".toList, some ["PEM", "DER"]⟩]

/-- `parse_cli`'s parsed option values (`cli.input`, `cli.output`,
    `cli.keyform` defaulted to `"PEM"`). -/
structure CrOpts where
  input : Option String
  output : Option String
  keyform : String
deriving DecidableEq, Repr

/-- Build the option record from the parser's accumulated pairs. -/
def mkCrOpts (l : List (String × String)) : CrOpts :=
  ⟨lookupOpt l "--input", lookupOpt l "--output",
   (lookupOpt l "--keyform").getD "PEM"⟩

/-- `CryptoOperation.read_key` (source lines 162-169): status line, open
    the key file with no mode flag (text mode), hand the text-mode view of
    its bytes to `key_class.load_pkcs1`. -/
def read_key (c : OpClass) (P : Platform) (files : String → Option String)
    (filename keyform : String) : Except String Nat × List Ev :=
  let e1 := Ev.errLine ("Reading " ++ c.keyname ++ " key from " ++ filename)
  match files filename with
  | none => (.error ("IOError: " ++ filename), [e1])
  | some raw =>
      (c.load_pkcs1 (P.decodeText raw) keyform,
       [e1, Ev.readFile filename Mode.text])

/-- `CryptoOperation.read_infile` (source lines 171-180): a truthy
    `--input` names a file opened with `'rb'` (binary mode); otherwise all
    of standard input is read. -/
def read_infile (files : String → Option String)
    (stdinData : String) (inname : Option String) :
    Except String String × List Ev :=
  if truthy inname then
    match files (inname.getD "") with
    | none =>
        (.error ("IOError: " ++ inname.getD ""),
         [Ev.errLine ("Reading input from " ++ inname.getD "")])
    | some d =>
        (.ok d,
         [Ev.errLine ("Reading input from " ++ inname.getD ""),
          Ev.readFile (inname.getD "") Mode.binary])
  else (.ok stdinData, [Ev.errLine "Reading input from stdin", Ev.readStdinEv])

/-- `CryptoOperation.write_outfile` (source lines 182-191): a truthy
    `--output` names a file opened with `'wb'` (binary mode); otherwise the
    data goes to standard output. -/
def write_outfile (outdata : String) (outname : Option String) : List Ev :=
  if truthy outname then
    [Ev.errLine ("Writing output to " ++ outname.getD ""),
     Ev.writeFile (outname.getD "") Mode.binary outdata]
  else [Ev.errLine "Writing output to stdout", Ev.outData outdata]

/-- The body of `CryptoOperation.__call__` after `parse_cli` (source lines
    122-129): read key, read input, progressive status line, transform,
    write output.  A `.error` from a collaborator is an uncaught Python
    exception. -/
def cryptoMain (c : OpClass) (P : Platform) (w : World) (opts : CrOpts)
    (keyPath : String) : Outcome × List Ev :=
  match read_key c P w.files keyPath opts.keyform with
  | (.error m, evK) => (.pyError m, evK)
  | (.ok key, evK) =>
    match read_infile w.files w.stdin opts.input with
    | (.error m, evI) => (.pyError m, evK ++ evI)
    | (.ok indata, evI) =>
      let evP := Ev.errLine (pyTitle c.operation_progressive)
      match c.perform_operation indata key with
      | .error m => (.pyError m, evK ++ evI ++ [evP])
      | .ok outdata =>
          (.success, evK ++ evI ++ [evP] ++ write_outfile outdata opts.output)

/-- `CryptoOperation.__call__` (source lines 117-129), including
    `parse_cli` (source lines 131-160) with its hard-coded usage and
    description and its positional-count gate. -/
def cryptoCall (c : OpClass) (P : Platform) (w : World) : Outcome × List Ev :=
  match parse_args cryptoSpecs w.argv with
  | .error e => (.exitCode 2, [Ev.parserError cryptoUsage (optErrMsg e)])
  | .ok (opts, pos) =>
    match pos with
    | [keyPath] => cryptoMain c P w (mkCrOpts opts) keyPath
    | _ => (.exitCode 1, [Ev.printHelp cryptoUsage cryptoParserDesc])

/-- `EncryptOperation` (source lines 193-208): public key role,
    `rsa.PublicKey.load_pkcs1`, `rsa.encrypt`. -/
def EncryptOperation (E : Engine) : OpClass :=
  ⟨"public", encryptDesc, "encrypt", "encrypted", "encrypting",
   E.loadPub, E.encrypt⟩

/-- `DecryptOperation` (source lines 210-225): private key role,
    `rsa.PrivateKey.load_pkcs1`, `rsa.decrypt`. -/
def DecryptOperation (E : Engine) : OpClass :=
  ⟨"private", decryptDesc, "decrypt", "decrypted", "decrypting",
   E.loadPriv, E.decrypt⟩

/-! ### Concrete instances used by witnesses and counterexamples -/

/-- A platform whose text mode is transparent (POSIX). -/
def idPlatform : Platform := ⟨id, id⟩

/-- LF → CRLF, the Windows text-mode write translation. -/
def lfToCrlf (s : String) : String := String.mk (go s.toList) where
  go : List Char → List Char
    | [] => []
    | '\n' :: r => '\r' :: '\n' :: go r
    | c :: r => c :: go r

/-- CRLF → LF, the Windows text-mode read translation. -/
def crlfToLf (s : String) : String := String.mk (go s.toList) where
  go : List Char → List Char
    | [] => []
    | '\r' :: '\n' :: r => '\n' :: go r
    | c :: r => c :: go r

/-- A platform with a non-transparent text mode (Windows-style). -/
def crlfPlatform : Platform := ⟨crlfToLf, lfToCrlf⟩

/-- A trivial total engine: every collaborator call succeeds. -/
def unitEngine : Engine :=
  ⟨fun _ => (0, 0), fun _ _ => "PUBKEY", fun _ _ => "PRIVKEY",
   fun _ _ => .ok 0, fun _ _ => .ok 0,
   fun d _ => .ok d, fun d _ => .ok d⟩

/-- An empty file system. -/
def noFiles : String → Option String := fun _ => none

/-- An engine whose serialized keys contain an LF byte (as any PEM key and
    many DER keys do). -/
def nlEngine : Engine :=
  ⟨fun _ => (0, 0), fun _ _ => "A\nB", fun _ _ => "C\nD",
   fun _ _ => .ok 0, fun _ _ => .ok 0,
   fun d _ => .ok d, fun d _ => .ok d⟩

/-- An operation class whose key decoder reports the exact bytes it was
    handed (by raising them as an exception message). -/
def recOp : OpClass :=
  ⟨"public", "", "encrypt", "encrypted", "encrypting",
   fun s _ => .error s, fun d _ => .ok d⟩

/-- A world holding one key file whose raw bytes contain a CRLF pair. -/
def recWorld : World :=
  ⟨["k.der"], "", fun p => if p == "k.der" then some "K\r\nD" else none⟩

/-- A world with a single key file, payload on standard input. -/
def encWorld : World :=
  ⟨["key.pem"], "MSG", fun p => if p == "key.pem" then some "KDATA" else none⟩

/-! ### Helper lemmas -/

/-- A token that does not begin with `-` is consumed as a positional. -/
theorem procArgs_single_plain (specs : List OptSpec)
    (opts : List (String × String)) (pos : List String) (a : String)
    (h : a.toList.head? ≠ some '-') :
    procArgs specs [a] none opts pos = .ok (opts, (a :: pos).reverse) := by
  unfold procArgs
  cases ha : a.toList with
  | nil => rfl
  | cons c cs =>
    rw [ha] at h
    have hc : c ≠ '-' := by
      intro hcc
      exact h (by rw [hcc]; rfl)
    split
    · rename_i heq
      injection heq with h1 h2
      exact absurd h1 hc
    · rename_i c' cs' heq
      injection heq with h1 h2
      exact absurd h1 hc
    · rename_i c' cs' heq
      injection heq with h1 h2
      exact absurd h1 hc
    · rfl

/-- An option valued by the empty string steers `keygen` exactly as an
    absent option does. -/
theorem keygenMain_falsy (E : Engine) (P : Platform) (f : String)
    (args : List String) :
    keygenMain E P ⟨some "", some "", f⟩ args =
      keygenMain E P ⟨none, none, f⟩ args := rfl

/-- An option valued by the empty string steers the crypto pipeline
    exactly as an absent option does. -/
theorem cryptoMain_falsy (c : OpClass) (P : Platform) (w : World)
    (kf kp : String) :
    cryptoMain c P w ⟨some "", some "", kf⟩ kp =
      cryptoMain c P w ⟨none, none, kf⟩ kp := rfl

/-- Symbolic execution of a fully successful `CryptoOperation.__call__`
    run: the trace is the fixed sequence key-read, input-read, progressive
    status line, output-write, and the data written is the transform of the
    input bytes under the decoded key. -/
theorem cryptoCall_success (c : OpClass) (P : Platform) (w : World)
    (o : List (String × String)) (kp keyraw inraw out : String) (key : Nat)
    (hparse : parse_args cryptoSpecs w.argv = .ok (o, [kp]))
    (hkey : w.files kp = some keyraw)
    (hin : truthy (mkCrOpts o).input = true →
      w.files ((mkCrOpts o).input.getD "") = some inraw)
    (hload : c.load_pkcs1 (P.decodeText keyraw) (mkCrOpts o).keyform = .ok key)
    (hperf : c.perform_operation
        (if truthy (mkCrOpts o).input then inraw else w.stdin) key = .ok out) :
    cryptoCall c P w = (.success,
      [Ev.errLine ("Reading " ++ c.keyname ++ " key from " ++ kp),
       Ev.readFile kp Mode.text]
      ++ (if truthy (mkCrOpts o).input then
            [Ev.errLine ("Reading input from " ++ (mkCrOpts o).input.getD ""),
             Ev.readFile ((mkCrOpts o).input.getD "") Mode.binary]
          else [Ev.errLine "Reading input from stdin", Ev.readStdinEv])
      ++ [Ev.errLine (pyTitle c.operation_progressive)]
      ++ (if truthy (mkCrOpts o).output then
            [Ev.errLine ("Writing output to " ++ (mkCrOpts o).output.getD ""),
             Ev.writeFile ((mkCrOpts o).output.getD "") Mode.binary out]
          else [Ev.errLine "Writing output to stdout", Ev.outData out])) := by
  unfold cryptoCall
  rw [hparse]
  show cryptoMain c P w (mkCrOpts o) kp = _
  by_cases hI : truthy (mkCrOpts o).input = true
  · rw [if_pos hI] at hperf
    simp [cryptoMain, read_key, hkey, hload, read_infile, hI, hin hI, hperf,
      write_outfile]
  · rw [if_neg hI] at hperf
    simp [cryptoMain, read_key, hkey, hload, read_infile, hI, hperf,
      write_outfile]

/-! ### Claims -/

/-- C1: every encrypt or decrypt invocation that passes argument parsing
    runs the fixed sequence — decode the key from the single positional
    path (public key and `rsa.encrypt` for encrypt, private key and
    `rsa.decrypt` for decrypt), read the whole input from the `--input`
    file if given else from standard input, emit the progressive-form
    status line, apply the variant's transform, and write the result to
    the `--output` file if given else to standard output; the key is
    decoded before any input is read (its trace events precede every
    input-read event).  The two variants are quantified over separate
    worlds `wE`/`wD`, each with only its own hypotheses. -/
theorem C1_fixed_sequence (E : Engine) (P : Platform) (wE wD : World)
    (oE oD : List (String × String))
    (kpE kpD keyrawE keyrawD inrawE inrawD outE outD : String)
    (keyE keyD : Nat)
    (hparseE : parse_args cryptoSpecs wE.argv = .ok (oE, [kpE]))
    (hkeyE : wE.files kpE = some keyrawE)
    (hinE : truthy (mkCrOpts oE).input = true →
      wE.files ((mkCrOpts oE).input.getD "") = some inrawE)
    (hloadE : E.loadPub (P.decodeText keyrawE) (mkCrOpts oE).keyform = .ok keyE)
    (hencE : E.encrypt (if truthy (mkCrOpts oE).input then inrawE else wE.stdin)
      keyE = .ok outE)
    (hparseD : parse_args cryptoSpecs wD.argv = .ok (oD, [kpD]))
    (hkeyD : wD.files kpD = some keyrawD)
    (hinD : truthy (mkCrOpts oD).input = true →
      wD.files ((mkCrOpts oD).input.getD "") = some inrawD)
    (hloadD : E.loadPriv (P.decodeText keyrawD) (mkCrOpts oD).keyform = .ok keyD)
    (hencD : E.decrypt (if truthy (mkCrOpts oD).input then inrawD else wD.stdin)
      keyD = .ok outD) :
    cryptoCall (EncryptOperation E) P wE = (.success,
      [Ev.errLine ("Reading public key from " ++ kpE),
       Ev.readFile kpE Mode.text]
      ++ (if truthy (mkCrOpts oE).input then
            [Ev.errLine ("Reading input from " ++ (mkCrOpts oE).input.getD ""),
             Ev.readFile ((mkCrOpts oE).input.getD "") Mode.binary]
          else [Ev.errLine "Reading input from stdin", Ev.readStdinEv])
      ++ [Ev.errLine "Encrypting"]
      ++ (if truthy (mkCrOpts oE).output then
            [Ev.errLine ("Writing output to " ++ (mkCrOpts oE).output.getD ""),
             Ev.writeFile ((mkCrOpts oE).output.getD "") Mode.binary outE]
          else [Ev.errLine "Writing output to stdout", Ev.outData outE])) ∧
    cryptoCall (DecryptOperation E) P wD = (.success,
      [Ev.errLine ("Reading private key from " ++ kpD),
       Ev.readFile kpD Mode.text]
      ++ (if truthy (mkCrOpts oD).input then
            [Ev.errLine ("Reading input from " ++ (mkCrOpts oD).input.getD ""),
             Ev.readFile ((mkCrOpts oD).input.getD "") Mode.binary]
          else [Ev.errLine "Reading input from stdin", Ev.readStdinEv])
      ++ [Ev.errLine "Decrypting"]
      ++ (if truthy (mkCrOpts oD).output then
            [Ev.errLine ("Writing output to " ++ (mkCrOpts oD).output.getD ""),
             Ev.writeFile ((mkCrOpts oD).output.getD "") Mode.binary outD]
          else [Ev.errLine "Writing output to stdout", Ev.outData outD])) :=
  ⟨cryptoCall_success (EncryptOperation E) P wE oE kpE keyrawE inrawE outE keyE
      hparseE hkeyE hinE hloadE hencE,
   cryptoCall_success (DecryptOperation E) P wD oD kpD keyrawD inrawD outD keyD
      hparseD hkeyD hinD hloadD hencD⟩

/-- C1 witness: a concrete encrypt run and a concrete decrypt run over a
    one-file world, stdin payload, no `--input`/`--output`. -/
theorem C1_fixed_sequence_witness :
    cryptoCall (EncryptOperation unitEngine) idPlatform encWorld = (.success,
      [Ev.errLine "Reading public key from key.pem",
       Ev.readFile "key.pem" Mode.text,
       Ev.errLine "Reading input from stdin", Ev.readStdinEv,
       Ev.errLine "Encrypting",
       Ev.errLine "Writing output to stdout", Ev.outData "MSG"]) ∧
    cryptoCall (DecryptOperation unitEngine) idPlatform encWorld = (.success,
      [Ev.errLine "Reading private key from key.pem",
       Ev.readFile "key.pem" Mode.text,
       Ev.errLine "Reading input from stdin", Ev.readStdinEv,
       Ev.errLine "Decrypting",
       Ev.errLine "Writing output to stdout", Ev.outData "MSG"]) :=
  C1_fixed_sequence unitEngine idPlatform encWorld encWorld [] []
    "key.pem" "key.pem" "KDATA" "KDATA" "X" "X" "MSG" "MSG" 0 0
    rfl rfl (fun h => absurd h (by decide)) rfl rfl
    rfl rfl (fun h => absurd h (by decide)) rfl rfl

/-- C2 counterexample: the claim also calls keysize `0` (and negative
    integers) a usage error, but `int('0')` parses fine, so `keygen 0`
    passes the gate without printing help or exiting with code 1 — it
    proceeds straight to key generation. -/
theorem C2_zero_keysize_counterexample :
    keygen unitEngine idPlatform ⟨["0"], "", noFiles⟩ =
      (.success, [Ev.errLine "Generating 0-bit key",
        Ev.errLine "Writing private key to stdout", Ev.outData "PRIVKEY"]) ∧
    (keygen unitEngine idPlatform ⟨["0"], "", noFiles⟩).1 ≠ .exitCode 1 := by
  decide

/-- C2 amended: a keysize positional that does not parse as an integer
    via `int()` is a usage error: help is printed, the process exits with
    code 1, and no key files are written (the trace holds no file write).
    Zero and negative integers, however, parse and are passed on to key
    generation. -/
theorem C2_nonint_usage_error (E : Engine) (P : Platform) (w : World)
    (o : List (String × String)) (s : String)
    (hparse : parse_args keygenSpecs w.argv = .ok (o, [s]))
    (hint : pyInt s = none) :
    keygen E P w = (.exitCode 1,
      [Ev.printHelp kgUsage kgDesc,
       Ev.errLine ("Not a valid number: " ++ s)]) ∧
    (keygen E P w).2.all (fun e => !e.isWriteFile) = true := by
  have h : keygen E P w = (.exitCode 1,
      [Ev.printHelp kgUsage kgDesc,
       Ev.errLine ("Not a valid number: " ++ s)]) := by
    unfold keygen
    rw [hparse]
    show keygenMain E P (mkKgOpts o) [s] = _
    simp [keygenMain, hint]
  exact ⟨h, by rw [h]; rfl⟩

/-- C2 witness: `keygen abc`. -/
theorem C2_nonint_usage_error_witness :
    keygen unitEngine idPlatform ⟨["abc"], "", noFiles⟩ = (.exitCode 1,
      [Ev.printHelp kgUsage kgDesc, Ev.errLine "Not a valid number: abc"]) ∧
    (keygen unitEngine idPlatform ⟨["abc"], "", noFiles⟩).2.all
      (fun e => !e.isWriteFile) = true :=
  C2_nonint_usage_error unitEngine idPlatform ⟨["abc"], "", noFiles⟩ []
    "abc" rfl rfl

/-- C3 counterexample: an invalid `--form`/`--keyform` value is caught by
    the option parser itself (`OptionParser.error`), which prints the
    usage line plus an error message to standard error — not the full help
    on stdout — and exits with status 2, not 1 as the claim states. -/
theorem C3_exit_status_counterexample :
    keygen unitEngine idPlatform ⟨["--form", "XXX", "512"], "", noFiles⟩ =
      (.exitCode 2, [Ev.parserError kgUsage
        "option --form: invalid choice: XXX (choose from PEM, DER)"]) ∧
    cryptoCall (DecryptOperation unitEngine) idPlatform
        ⟨["--keyform", "XXX", "k"], "", noFiles⟩ =
      (.exitCode 2, [Ev.parserError cryptoUsage
        "option --keyform: invalid choice: XXX (choose from PEM, DER)"]) ∧
    Outcome.exitCode 2 ≠ Outcome.exitCode 1 := by
  decide

/-- C3 amended: supplying a format value outside PEM/DER to `--form` or
    `--keyform` is a usage error recovered locally by the option parser:
    it prints the usage line with an invalid-choice message and the
    process exits with status 2 — never via an uncaught exception. -/
theorem C3_invalid_choice_exits_2 (E : Engine) (c : OpClass) (P : Platform)
    (v : String) (rest : List String) (stdinData : String)
    (files : String → Option String)
    (h1 : v ≠ "PEM") (h2 : v ≠ "DER") :
    keygen E P ⟨"--form" :: v :: rest, stdinData, files⟩ =
      (.exitCode 2, [Ev.parserError kgUsage
        (optErrMsg (.badChoice "--form" v ["PEM", "DER"]))]) ∧
    cryptoCall c P ⟨"--keyform" :: v :: rest, stdinData, files⟩ =
      (.exitCode 2, [Ev.parserError cryptoUsage
        (optErrMsg (.badChoice "--keyform" v ["PEM", "DER"]))]) := by
  constructor
  · have hp : parse_args keygenSpecs ("--form" :: v :: rest) =
        .error (.badChoice "--form" v ["PEM", "DER"]) := by
      show procArgs keygenSpecs ("--form" :: v :: rest) none [] [] = _
      have step : procArgs keygenSpecs ("--form" :: v :: rest) none [] [] =
          procArgs keygenSpecs (v :: rest)
            (some ⟨"--form".toList, some ["PEM", "DER"]⟩) [] [] := rfl
      rw [step]
      unfold procArgs checkVal
      simp [h1, h2]
    unfold keygen
    rw [hp]
  · have hp : parse_args cryptoSpecs ("--keyform" :: v :: rest) =
        .error (.badChoice "--keyform" v ["PEM", "DER"]) := by
      show procArgs cryptoSpecs ("--keyform" :: v :: rest) none [] [] = _
      have step : procArgs cryptoSpecs ("--keyform" :: v :: rest) none [] [] =
          procArgs cryptoSpecs (v :: rest)
            (some ⟨"--keyform".toList, some ["PEM", "DER"]⟩) [] [] := rfl
      rw [step]
      unfold procArgs checkVal
      simp [h1, h2]
    unfold cryptoCall
    rw [hp]

/-- C3 witness: `--form XXX` / `--keyform XXX`. -/
theorem C3_invalid_choice_exits_2_witness :
    keygen unitEngine idPlatform ⟨["--form", "XXX", "512"], "x", noFiles⟩ =
      (.exitCode 2, [Ev.parserError kgUsage
        (optErrMsg (.badChoice "--form" "XXX" ["PEM", "DER"]))]) ∧
    cryptoCall recOp idPlatform ⟨["--keyform", "XXX", "512"], "x", noFiles⟩ =
      (.exitCode 2, [Ev.parserError cryptoUsage
        (optErrMsg (.badChoice "--keyform" "XXX" ["PEM", "DER"]))]) :=
  C3_invalid_choice_exits_2 unitEngine recOp idPlatform "XXX" ["512"] "x"
    noFiles (by decide) (by decide)

/-- C4 counterexample: key files are opened with mode `'w'` (text mode),
    so on a platform whose text mode translates LF to CRLF the bytes on
    disk differ from the serialized key data — the write is not
    binary-safe as the claim asserts. -/
theorem C4_text_mode_counterexample :
    keygen nlEngine crlfPlatform
        ⟨["--pubout", "pub.der", "--form", "DER", "8"], "", noFiles⟩ =
      (.success,
       [Ev.errLine "Generating 8-bit key",
        Ev.errLine "Writing public key to pub.der",
        Ev.writeFile "pub.der" Mode.text "A\r\nB",
        Ev.errLine "Writing private key to stdout",
        Ev.outData "C\nD"]) ∧
    nlEngine.savePubPkcs1 (nlEngine.newkeys 8).1 "DER" = "A\nB" ∧
    "A\r\nB" ≠ "A\nB" := by
  decide

/-- C4 amended: when `--pubout` is given, the serialized public key is
    written to that path with overwrite semantics but in text mode, so the
    bytes on disk are the platform's text-mode encoding of the serialized
    data (byte-identical to it exactly when that encoding is transparent);
    the private key is always serialized and written, likewise in text
    mode, to `--privout` if given, else raw to standard output. -/
theorem C4_keygen_writes (E : Engine) (P : Platform) (w : World)
    (o : List (String × String)) (s : String) (k : Int)
    (hparse : parse_args keygenSpecs w.argv = .ok (o, [s]))
    (hint : pyInt s = some k) :
    keygen E P w = (.success,
      Ev.errLine ("Generating " ++ toString k ++ "-bit key") ::
      ((if truthy (mkKgOpts o).pubout then
          [Ev.errLine ("Writing public key to " ++ (mkKgOpts o).pubout.getD ""),
           Ev.writeFile ((mkKgOpts o).pubout.getD "") Mode.text
             (P.encodeText (E.savePubPkcs1 (E.newkeys k).1 (mkKgOpts o).form))]
        else [])
       ++ (if truthy (mkKgOpts o).privout then
          [Ev.errLine ("Writing private key to " ++ (mkKgOpts o).privout.getD ""),
           Ev.writeFile ((mkKgOpts o).privout.getD "") Mode.text
             (P.encodeText (E.savePrivPkcs1 (E.newkeys k).2 (mkKgOpts o).form))]
        else [Ev.errLine "Writing private key to stdout",
              Ev.outData (E.savePrivPkcs1 (E.newkeys k).2 (mkKgOpts o).form)]))) := by
  unfold keygen
  rw [hparse]
  show keygenMain E P (mkKgOpts o) [s] = _
  simp [keygenMain, hint]

/-- C4 witness: both key files requested, transparent platform. -/
theorem C4_keygen_writes_witness :
    keygen unitEngine idPlatform
        ⟨["--pubout", "pub.pem", "--privout", "priv.pem", "512"], "", noFiles⟩ =
      (.success,
       [Ev.errLine "Generating 512-bit key",
        Ev.errLine "Writing public key to pub.pem",
        Ev.writeFile "pub.pem" Mode.text "PUBKEY",
        Ev.errLine "Writing private key to priv.pem",
        Ev.writeFile "priv.pem" Mode.text "PRIVKEY"]) :=
  C4_keygen_writes unitEngine idPlatform
    ⟨["--pubout", "pub.pem", "--privout", "priv.pem", "512"], "", noFiles⟩
    [("--privout", "priv.pem"), ("--pubout", "pub.pem")] "512" 512 rfl rfl

/-- C5 (code bug): `parse_cli` hard-codes the encrypt-flavoured usage and
    description instead of using the interpolated class attributes, so the
    decrypt command's help names `public_key` and describes encryption,
    even though the decrypt operation's own identity (`keyname`,
    `description`) says private/decrypt — contradicting the class's own
    attribute machinery and the spec's intent.  Failing input: running the
    decrypt command with a wrong positional count (here: none). -/
theorem C5_decrypt_help_is_encrypt_help :
    cryptoCall (DecryptOperation unitEngine) idPlatform ⟨[], "", noFiles⟩ =
      (.exitCode 1,
       [Ev.printHelp "usage: %prog [options] public_key" cryptoParserDesc]) ∧
    (DecryptOperation unitEngine).keyname = "private" ∧
    instanceUsage (DecryptOperation unitEngine).keyname =
      "usage: %prog [options] private_key" ∧
    (DecryptOperation unitEngine).description = decryptDesc ∧
    decryptDesc ≠ cryptoParserDesc := by
  decide

/-- C6: a positional count other than one — zero, or two or more — makes
    keygen and the crypto commands print the help text and exit with code
    1: a handled usage error, not an uncaught exception. -/
theorem C6_wrong_positional_count (E : Engine) (c : OpClass) (P : Platform)
    (w1 w2 : World) (o1 o2 : List (String × String)) (pos1 pos2 : List String)
    (hk : parse_args keygenSpecs w1.argv = .ok (o1, pos1))
    (hk1 : pos1.length ≠ 1)
    (hc : parse_args cryptoSpecs w2.argv = .ok (o2, pos2))
    (hc1 : pos2.length ≠ 1) :
    keygen E P w1 = (.exitCode 1, [Ev.printHelp kgUsage kgDesc]) ∧
    cryptoCall c P w2 =
      (.exitCode 1, [Ev.printHelp cryptoUsage cryptoParserDesc]) := by
  constructor
  · unfold keygen
    rw [hk]
    match pos1, hk1 with
    | [], _ => rfl
    | [a], h => exact absurd rfl h
    | a :: b :: t, _ => rfl
  · unfold cryptoCall
    rw [hc]
    match pos2, hc1 with
    | [], _ => rfl
    | [a], h => exact absurd rfl h
    | a :: b :: t, _ => rfl

/-- C6 witness: keygen with two positionals; encrypt with an `--input`
    option and zero positionals. -/
theorem C6_wrong_positional_count_witness :
    keygen unitEngine idPlatform ⟨["a", "b"], "", noFiles⟩ =
      (.exitCode 1, [Ev.printHelp kgUsage kgDesc]) ∧
    cryptoCall recOp idPlatform ⟨["--input", "f"], "", noFiles⟩ =
      (.exitCode 1, [Ev.printHelp cryptoUsage cryptoParserDesc]) :=
  C6_wrong_positional_count unitEngine recOp idPlatform
    ⟨["a", "b"], "", noFiles⟩ ⟨["--input", "f"], "", noFiles⟩
    [] [("--input", "f")] ["a", "b"] []
    rfl (by decide) rfl (by decide)

/-- `stdoutOnlyData` distributes over trace concatenation. -/
theorem stdoutOnlyData_append (t1 t2 : List Ev) :
    stdoutOnlyData (t1 ++ t2) = (stdoutOnlyData t1 && stdoutOnlyData t2) := by
  simp [stdoutOnlyData, List.all_append]

/-- `read_key` emits nothing on standard output. -/
theorem read_key_stdout (c : OpClass) (P : Platform)
    (files : String → Option String) (fn kf : String) :
    stdoutOnlyData (read_key c P files fn kf).2 = true := by
  unfold read_key
  cases files fn <;> rfl

/-- `read_infile` emits nothing on standard output. -/
theorem read_infile_stdout (files : String → Option String)
    (stdinData : String) (inname : Option String) :
    stdoutOnlyData (read_infile files stdinData inname).2 = true := by
  unfold read_infile
  by_cases h : truthy inname = true
  · rw [if_pos h]
    cases files (inname.getD "") <;> rfl
  · rw [if_neg h]
    rfl

/-- `write_outfile` emits only the raw payload on standard output. -/
theorem write_outfile_stdout (outdata : String) (outname : Option String) :
    stdoutOnlyData (write_outfile outdata outname) = true := by
  unfold write_outfile
  by_cases h : truthy outname = true
  · rw [if_pos h]
    rfl
  · rw [if_neg h]
    rfl

/-- Every standard-output emission of the post-parse crypto pipeline is
    raw payload data. -/
theorem cryptoMain_stdout (c : OpClass) (P : Platform) (w : World)
    (opts : CrOpts) (kp : String) :
    stdoutOnlyData (cryptoMain c P w opts kp).2 = true := by
  unfold cryptoMain
  split
  next m evK heq =>
    have hK := read_key_stdout c P w.files kp opts.keyform
    rw [heq] at hK
    exact hK
  next key evK heq =>
    have hK : stdoutOnlyData evK = true := by
      have h := read_key_stdout c P w.files kp opts.keyform
      rw [heq] at h
      exact h
    split
    next m evI heq2 =>
      have hI : stdoutOnlyData evI = true := by
        have h := read_infile_stdout w.files w.stdin opts.input
        rw [heq2] at h
        exact h
      show stdoutOnlyData (evK ++ evI) = true
      rw [stdoutOnlyData_append, hK, hI]
      rfl
    next indata evI heq2 =>
      have hI : stdoutOnlyData evI = true := by
        have h := read_infile_stdout w.files w.stdin opts.input
        rw [heq2] at h
        exact h
      split
      next m heq3 =>
        show stdoutOnlyData
          (evK ++ evI ++ [Ev.errLine (pyTitle c.operation_progressive)]) = true
        rw [stdoutOnlyData_append, stdoutOnlyData_append, hK, hI]
        rfl
      next outdata heq3 =>
        show stdoutOnlyData
          (evK ++ evI ++ [Ev.errLine (pyTitle c.operation_progressive)]
            ++ write_outfile outdata opts.output) = true
        rw [stdoutOnlyData_append, stdoutOnlyData_append,
          stdoutOnlyData_append, hK, hI, write_outfile_stdout]
        rfl

/-- C7 counterexample: on a usage error (here keygen with no arguments)
    the help text is printed on standard output, so it is not true of
    every invocation that standard output receives nothing but payload or
    key bytes. -/
theorem C7_help_on_stdout_counterexample :
    keygen unitEngine idPlatform ⟨[], "", noFiles⟩ =
      (.exitCode 1, [Ev.printHelp kgUsage kgDesc]) ∧
    (Ev.printHelp kgUsage kgDesc).isStdout = true ∧
    stdoutOnlyData (keygen unitEngine idPlatform ⟨[], "", noFiles⟩).2 =
      false := by
  decide

/-- C7 amended: for every invocation that passes argument parsing (one
    positional; for keygen also an integer keysize), all human-readable
    status lines go to standard error and standard output receives nothing
    but the transformed payload or the serialized key bytes; only the
    usage-error help text ever appears on standard output. -/
theorem C7_stdout_payload_only (E : Engine) (c : OpClass) (P : Platform)
    (w1 w2 : World) (o1 o2 : List (String × String)) (s kp : String) (k : Int)
    (hk : parse_args keygenSpecs w1.argv = .ok (o1, [s]))
    (hki : pyInt s = some k)
    (hc : parse_args cryptoSpecs w2.argv = .ok (o2, [kp])) :
    stdoutOnlyData (keygen E P w1).2 = true ∧
    stdoutOnlyData (cryptoCall c P w2).2 = true := by
  constructor
  · unfold keygen
    rw [hk]
    show stdoutOnlyData (keygenMain E P (mkKgOpts o1) [s]).2 = true
    by_cases hp : truthy (mkKgOpts o1).pubout = true <;>
      by_cases hv : truthy (mkKgOpts o1).privout = true <;>
        simp [keygenMain, hki, hp, hv, stdoutOnlyData, Ev.isStdout,
          Ev.isOutData]
  · unfold cryptoCall
    rw [hc]
    exact cryptoMain_stdout c P w2 (mkCrOpts o2) kp

/-- C7 witness: keygen writing both key files, and an encrypt run with
    `--input` and `--output` given. -/
theorem C7_stdout_payload_only_witness :
    stdoutOnlyData (keygen unitEngine idPlatform
      ⟨["--pubout", "p.pem", "--privout", "q.pem", "6"], "", noFiles⟩).2 =
      true ∧
    stdoutOnlyData (cryptoCall recOp idPlatform
      ⟨["--input", "i.bin", "--output", "o.bin", "key.pem"], "",
       noFiles⟩).2 = true :=
  C7_stdout_payload_only unitEngine recOp idPlatform
    ⟨["--pubout", "p.pem", "--privout", "q.pem", "6"], "", noFiles⟩
    ⟨["--input", "i.bin", "--output", "o.bin", "key.pem"], "", noFiles⟩
    [("--privout", "q.pem"), ("--pubout", "p.pem")]
    [("--output", "o.bin"), ("--input", "i.bin")]
    "6" "key.pem" 6 rfl rfl rfl

/-- C8: a key-generation run that omits `--pubout` writes no file at all
    for the public key (the trace holds no `writeFile` event), while —
    with `--privout` also absent — the private key is still serialized and
    written to standard output. -/
theorem C8_no_pubout_file (E : Engine) (P : Platform) (w : World)
    (o : List (String × String)) (s : String) (k : Int)
    (hparse : parse_args keygenSpecs w.argv = .ok (o, [s]))
    (hint : pyInt s = some k)
    (hpub : truthy (mkKgOpts o).pubout = false)
    (hpriv : truthy (mkKgOpts o).privout = false) :
    keygen E P w = (.success,
      [Ev.errLine ("Generating " ++ toString k ++ "-bit key"),
       Ev.errLine "Writing private key to stdout",
       Ev.outData (E.savePrivPkcs1 (E.newkeys k).2 (mkKgOpts o).form)]) ∧
    (keygen E P w).2.all (fun e => !e.isWriteFile) = true := by
  have h : keygen E P w = (.success,
      [Ev.errLine ("Generating " ++ toString k ++ "-bit key"),
       Ev.errLine "Writing private key to stdout",
       Ev.outData (E.savePrivPkcs1 (E.newkeys k).2 (mkKgOpts o).form)]) := by
    unfold keygen
    rw [hparse]
    show keygenMain E P (mkKgOpts o) [s] = _
    simp [keygenMain, hint, hpub, hpriv]
  refine ⟨h, ?_⟩
  rw [h]
  rfl

/-- C8 witness: `keygen 16`. -/
theorem C8_no_pubout_file_witness :
    keygen unitEngine idPlatform ⟨["16"], "", noFiles⟩ = (.success,
      [Ev.errLine "Generating 16-bit key",
       Ev.errLine "Writing private key to stdout",
       Ev.outData "PRIVKEY"]) ∧
    (keygen unitEngine idPlatform ⟨["16"], "", noFiles⟩).2.all
      (fun e => !e.isWriteFile) = true :=
  C8_no_pubout_file unitEngine idPlatform ⟨["16"], "", noFiles⟩ [] "16" 16
    rfl rfl rfl rfl

/-- A world with a key file and a separate `--input` payload file. -/
def w9 : World :=
  ⟨["--input", "in.bin", "key.pem"], "",
   fun p =>
     if p == "key.pem" then some "KDATA"
     else if p == "in.bin" then some "DATA" else none⟩

/-- C9: the key file named by the positional argument is opened with no
    binary flag, so it is read in text mode, while the `--input` payload
    file is read in binary mode; the bytes handed to the key decoder are
    the platform's text-mode view of the key file, which (last two
    conjuncts, on a CRLF-translating platform) need not be byte-identical
    to the raw file contents — the decoder demonstrably receives the
    translated bytes. -/
theorem C9_key_text_mode (c : OpClass) (P : Platform) (w : World)
    (o : List (String × String)) (kp keyraw nm d : String) (key : Nat)
    (hparse : parse_args cryptoSpecs w.argv = .ok (o, [kp]))
    (hkey : w.files kp = some keyraw)
    (hload : c.load_pkcs1 (P.decodeText keyraw) (mkCrOpts o).keyform = .ok key)
    (hinp : (mkCrOpts o).input = some nm)
    (hne : nm ≠ "")
    (hfile : w.files nm = some d) :
    Ev.readFile kp Mode.text ∈ (cryptoCall c P w).2 ∧
    Ev.readFile nm Mode.binary ∈ (cryptoCall c P w).2 ∧
    crlfPlatform.decodeText "K\r\nD" ≠ "K\r\nD" ∧
    cryptoCall recOp crlfPlatform recWorld = (.pyError "K\nD",
      [Ev.errLine "Reading public key from k.der",
       Ev.readFile "k.der" Mode.text]) := by
  have hrk : read_key c P w.files kp (mkCrOpts o).keyform =
      (.ok key, [Ev.errLine ("Reading " ++ c.keyname ++ " key from " ++ kp),
        Ev.readFile kp Mode.text]) := by
    simp [read_key, hkey, hload]
  have hri : read_infile w.files w.stdin (mkCrOpts o).input =
      (.ok d, [Ev.errLine ("Reading input from " ++ nm),
        Ev.readFile nm Mode.binary]) := by
    simp [read_infile, hinp, truthy, hne, hfile]
  have hmem : Ev.readFile kp Mode.text ∈ (cryptoCall c P w).2 ∧
      Ev.readFile nm Mode.binary ∈ (cryptoCall c P w).2 := by
    unfold cryptoCall
    rw [hparse]
    show Ev.readFile kp Mode.text ∈ (cryptoMain c P w (mkCrOpts o) kp).2 ∧
      Ev.readFile nm Mode.binary ∈ (cryptoMain c P w (mkCrOpts o) kp).2
    simp only [cryptoMain, hrk, hri]
    cases c.perform_operation d key with
    | error m => constructor <;> simp
    | ok outdata => constructor <;> simp [write_outfile]
  exact ⟨hmem.1, hmem.2, by decide, by decide⟩

/-- C9 witness: `--input in.bin key.pem`. -/
theorem C9_key_text_mode_witness :
    Ev.readFile "key.pem" Mode.text ∈
      (cryptoCall (EncryptOperation unitEngine) idPlatform w9).2 ∧
    Ev.readFile "in.bin" Mode.binary ∈
      (cryptoCall (EncryptOperation unitEngine) idPlatform w9).2 ∧
    crlfPlatform.decodeText "K\r\nD" ≠ "K\r\nD" ∧
    cryptoCall recOp crlfPlatform recWorld = (.pyError "K\nD",
      [Ev.errLine "Reading public key from k.der",
       Ev.readFile "k.der" Mode.text]) :=
  C9_key_text_mode (EncryptOperation unitEngine) idPlatform w9
    [("--input", "in.bin")] "key.pem" "KDATA" "in.bin" "DATA" 0
    rfl rfl rfl rfl (by decide) rfl

/-- C10: supplying the empty string as the value of `--input`, `--output`,
    `--pubout`, or `--privout` behaves exactly as omitting the option —
    the whole run (outcome and trace) is identical, because each option is
    tested for truthiness, under which `''` and absence coincide; in
    particular no file named by the empty string is ever opened. -/
theorem C10_empty_option_values (E : Engine) (c : OpClass) (P : Platform)
    (stdinData : String) (files : String → Option String) (sz kp : String)
    (hsz : sz.toList.head? ≠ some '-') (hkp : kp.toList.head? ≠ some '-') :
    keygen E P ⟨["--pubout", "", "--privout", "", sz], stdinData, files⟩ =
      keygen E P ⟨[sz], stdinData, files⟩ ∧
    cryptoCall c P ⟨["--input", "", "--output", "", kp], stdinData, files⟩ =
      cryptoCall c P ⟨[kp], stdinData, files⟩ := by
  constructor
  · have hL : parse_args keygenSpecs ["--pubout", "", "--privout", "", sz] =
        .ok ([("--privout", ""), ("--pubout", "")], [sz]) := by
      have step : parse_args keygenSpecs ["--pubout", "", "--privout", "", sz] =
          procArgs keygenSpecs [sz] none
            [("--privout", ""), ("--pubout", "")] [] := rfl
      rw [step, procArgs_single_plain keygenSpecs _ [] sz hsz]
      simp
    have hR : parse_args keygenSpecs [sz] = .ok ([], [sz]) := by
      have step : parse_args keygenSpecs [sz] =
          procArgs keygenSpecs [sz] none [] [] := rfl
      rw [step, procArgs_single_plain keygenSpecs [] [] sz hsz]
      simp
    unfold keygen
    rw [hL, hR]
    exact keygenMain_falsy E P "PEM" [sz]
  · have hL : parse_args cryptoSpecs ["--input", "", "--output", "", kp] =
        .ok ([("--output", ""), ("--input", "")], [kp]) := by
      have step : parse_args cryptoSpecs ["--input", "", "--output", "", kp] =
          procArgs cryptoSpecs [kp] none
            [("--output", ""), ("--input", "")] [] := rfl
      rw [step, procArgs_single_plain cryptoSpecs _ [] kp hkp]
      simp
    have hR : parse_args cryptoSpecs [kp] = .ok ([], [kp]) := by
      have step : parse_args cryptoSpecs [kp] =
          procArgs cryptoSpecs [kp] none [] [] := rfl
      rw [step, procArgs_single_plain cryptoSpecs [] [] kp hkp]
      simp
    unfold cryptoCall
    rw [hL, hR]
    exact (cryptoMain_falsy c P
      ⟨["--input", "", "--output", "", kp], stdinData, files⟩ "PEM" kp).trans
      rfl

/-- C10 witness: empty-string option values with concrete positionals. -/
theorem C10_empty_option_values_witness :
    keygen unitEngine idPlatform
        ⟨["--pubout", "", "--privout", "", "8"], "", noFiles⟩ =
      keygen unitEngine idPlatform ⟨["8"], "", noFiles⟩ ∧
    cryptoCall recOp idPlatform
        ⟨["--input", "", "--output", "", "k"], "", noFiles⟩ =
      cryptoCall recOp idPlatform ⟨["k"], "", noFiles⟩ :=
  C10_empty_option_values unitEngine recOp idPlatform "" noFiles "8" "k"
    (by decide) (by decide)

end RsaCli
